import Mathlib

/-!
Shallow embedding of the TTS service `backend/apis/tts/__init__.py`:
the WAV container encoders (`_pcm_to_wav`, `_convert_audio_to_wav`), the
cache-key fingerprint (`_stable_cache_key`), the provider-fallback
orchestrator (`generate_tts`) and the cached data-URL front end
(`get_audio_url`).

Bytes are modelled as `List Nat` (each element a byte value `< 256`).
Python `struct.pack` raises `struct.error` when a value does not fit the
field, so the packers return `Option`; Python exceptions in general are
modelled with `Option`/`Except`.
-/

namespace Tts

/-- `struct.pack "<I"` : one unsigned 32-bit little-endian field.
Python raises `struct.error` for values outside `[0, 2^32)`. -/
def pack32 (n : Int) : Option (List Nat) :=
  if 0 ≤ n ∧ n < 4294967296 then
    some [n.toNat % 256, n.toNat / 256 % 256, n.toNat / 65536 % 256,
          n.toNat / 16777216 % 256]
  else none

/-- `struct.pack "<H"` : one unsigned 16-bit little-endian field. -/
def pack16 (n : Int) : Option (List Nat) :=
  if 0 ≤ n ∧ n < 65536 then
    some [n.toNat % 256, n.toNat / 256 % 256]
  else none

/-- ASCII bytes of "RIFF". -/
def bRIFF : List Nat := [82, 73, 70, 70]
/-- ASCII bytes of "WAVE". -/
def bWAVE : List Nat := [87, 65, 86, 69]
/-- ASCII bytes of "fmt ". -/
def bFMT : List Nat := [102, 109, 116, 32]
/-- ASCII bytes of "data". -/
def bDATA : List Nat := [100, 97, 116, 97]

/-- Embeds `_pcm_to_wav(pcm_data, sample_rate=24000, channels=1, sample_width=2)`:
RIFF header, fmt chunk (PCM, derived byte rate / block align), data chunk,
then the raw payload.  The `struct.pack` calls appear in source order. -/
def _pcm_to_wav (pcm_data : List Nat) (sample_rate : Int := 24000)
    (channels : Int := 1) (sample_width : Int := 2) : Option (List Nat) := do
  let data_size : Int := pcm_data.length
  let riff_size : Int := 36 + data_size
  let w1 ← pack32 riff_size
  let w2 ← pack32 16
  let w3 ← pack16 1
  let w4 ← pack16 channels
  let w5 ← pack32 sample_rate
  let w6 ← pack32 (sample_rate * channels * sample_width)
  let w7 ← pack16 (channels * sample_width)
  let w8 ← pack16 (sample_width * 8)
  let w9 ← pack32 data_size
  return bRIFF ++ w1 ++ bWAVE ++ bFMT ++ w2 ++ w3 ++ w4 ++ w5 ++ w6 ++ w7
      ++ w8 ++ bDATA ++ w9 ++ pcm_data

/-- Reads the 32-bit little-endian integer stored at byte offset `i`. -/
def readLE32 (w : List Nat) (i : Nat) : Nat :=
  w.getD i 0 + 256 * w.getD (i + 1) 0 + 65536 * w.getD (i + 2) 0
    + 16777216 * w.getD (i + 3) 0

/-- The 44-byte header `_pcm_to_wav` emits at 24000 Hz, mono, 16-bit, as
a function of the payload length `n` (byte rate 48000, block align 2). -/
def pcmWavHeader (n : Nat) : List Nat :=
  82 :: 73 :: 70 :: 70 ::
  (36 + n) % 256 :: (36 + n) / 256 % 256 :: (36 + n) / 65536 % 256 ::
  (36 + n) / 16777216 % 256 ::
  87 :: 65 :: 86 :: 69 :: 102 :: 109 :: 116 :: 32 :: 16 :: 0 :: 0 :: 0 ::
  1 :: 0 :: 1 :: 0 :: 192 :: 93 :: 0 :: 0 :: 128 :: 187 :: 0 :: 0 ::
  2 :: 0 :: 16 :: 0 :: 100 :: 97 :: 116 :: 97 ::
  n % 256 :: n / 256 % 256 :: n / 65536 % 256 :: n / 16777216 % 256 :: []

/-- Python default whitespace for `str.strip()` (ASCII part). -/
def isPySpace (c : Char) : Bool :=
  c == ' ' || c == Char.ofNat 9 || c == Char.ofNat 10 || c == Char.ofNat 13
    || c == Char.ofNat 11 || c == Char.ofNat 12

/-- Python `s.strip()` (whitespace from both ends). -/
def pyStrip (s : String) : String :=
  String.mk (((s.data.dropWhile isPySpace).reverse.dropWhile isPySpace).reverse)

/-- Python `s.lower()` (ASCII range, which is all this code feeds it). -/
def pyLower (s : String) : String := String.mk (s.data.map Char.toLower)

/-- Python `s.startswith(p)`. -/
def pyStartsWith (s p : String) : Bool := p.data.isPrefixOf s.data

/-- Splits `l` at the first occurrence of the separator `sep`:
`some (before, after)`, or `none` when `sep` does not occur. -/
def firstSplit (sep : List Char) : List Char → Option (List Char × List Char)
  | [] => if sep.isPrefixOf [] then some ([], []) else none
  | c :: rest =>
      if sep.isPrefixOf (c :: rest) then some ([], (c :: rest).drop sep.length)
      else (firstSplit sep rest).map fun p => (c :: p.1, p.2)

/-- Python `s.split(sep, 1)[1]`: everything after the first occurrence of
`sep`; `None` models the `IndexError` when `sep` does not occur. -/
def splitAfterFirst (s sep : String) : Option String :=
  (firstSplit sep.data s.data).map fun p => String.mk p.2

/-- Fuel-driven worker for `pySplitList`.  Each successful `firstSplit` on
a non-empty separator strictly shrinks the remainder, so fuel
`l.length` never runs out before the separator stops occurring. -/
def pySplitListAux (sep : List Char) : Nat → List Char → List (List Char)
  | 0, l => [l]
  | fuel + 1, l =>
      match firstSplit sep l with
      | none => [l]
      | some (a, b) => a :: pySplitListAux sep fuel b

/-- Python `s.split(sep)` for a non-empty separator, on char lists
(non-overlapping matches, scanned left to right). -/
def pySplitList (sep : List Char) (l : List Char) : List (List Char) :=
  if sep = [] then [l] else pySplitListAux sep l.length l

/-- Python `s.split(sep)` on strings. -/
def pySplit (s sep : String) : List String :=
  (pySplitList sep.data s.data).map String.mk

/-- Models Python `int(s)` on ASCII input (no underscore digit grouping):
surrounding whitespace stripped, optional sign, non-empty digit run;
`None` models the `ValueError` raised otherwise. -/
def pyInt (s : String) : Option Int :=
  let t := (pyStrip s).data
  let sign : Int :=
    match t with
    | c :: _ => if c == Char.ofNat 45 then -1 else 1
    | [] => 1
  let digits :=
    match t with
    | c :: rest => if c == Char.ofNat 45 || c == Char.ofNat 43 then rest else t
    | [] => t
  if digits ≠ [] ∧ digits.all (·.isDigit) then
    some (sign * (digits.foldl (fun a c => a * 10 + (c.toNat - 48)) 0 : Nat))
  else none

/-- The parameter-parsing loop of `_convert_audio_to_wav`: scans the
`";"`-separated parts of the MIME type, updating `bits_per_sample` from an
`audio/L<n>` part and `sample_rate` from a `rate=<n>` part; parse failures
are swallowed (`except (ValueError, IndexError): pass`), keeping the
previous values.  Returns `(bits_per_sample, sample_rate)`,
starting from the defaults `(16, 24000)`. -/
def mimeParams (mime_type : String) : Int × Int :=
  (pySplit mime_type ";").foldl
    (fun acc p =>
      let param := pyStrip p
      if pyStartsWith (pyLower param) "rate=" then
        match splitAfterFirst param "=" with
        | some rate_str =>
          match pyInt rate_str with
          | some r => (acc.1, r)
          | none => acc
        | none => acc
      else if pyStartsWith param "audio/L" then
        match splitAfterFirst param "L" with
        | some bits_str =>
          match pyInt bits_str with
          | some b => (b, acc.2)
          | none => acc
        | none => acc
      else acc)
    (16, 24000)

/-- Embeds `_convert_audio_to_wav(audio_data, mime_type)`: derives
`bits_per_sample` and `sample_rate` from the MIME type (defaults 16-bit,
24000 Hz; `num_channels` is fixed at 1 and never parsed), then emits the
44-byte header via one `struct.pack "<4sI4s4sIHHIIHH4sI"` call followed by
the payload.  The packed fields appear in source order. -/
def _convert_audio_to_wav (audio_data : List Nat) (mime_type : String) :
    Option (List Nat) := do
  let bits_per_sample := (mimeParams mime_type).1
  let sample_rate := (mimeParams mime_type).2
  let num_channels : Int := 1
  let bytes_per_sample := bits_per_sample / 8
  let block_align := num_channels * bytes_per_sample
  let byte_rate := sample_rate * block_align
  let data_size : Int := audio_data.length
  let chunk_size : Int := 36 + data_size
  let f1 ← pack32 chunk_size
  let f2 ← pack32 16
  let f3 ← pack16 1
  let f4 ← pack16 num_channels
  let f5 ← pack32 sample_rate
  let f6 ← pack32 byte_rate
  let f7 ← pack16 block_align
  let f8 ← pack16 bits_per_sample
  let f9 ← pack32 data_size
  return bRIFF ++ f1 ++ bWAVE ++ bFMT ++ f2 ++ f3 ++ f4 ++ f5 ++ f6 ++ f7
      ++ f8 ++ bDATA ++ f9 ++ audio_data

/-- The literal 44-byte silent WAV returned by `generate_tts` when no
provider produced audio (RIFF size 36, 44100 Hz, 16-bit mono, data size 0). -/
def empty_wav : List Nat :=
  [82, 73, 70, 70,          -- "RIFF"
   36, 0, 0, 0,             -- ChunkSize (36)
   87, 65, 86, 69,          -- "WAVE"
   102, 109, 116, 32,       -- "fmt "
   16, 0, 0, 0,             -- Subchunk1Size (16)
   1, 0,                    -- AudioFormat (PCM)
   1, 0,                    -- NumChannels (mono)
   68, 172, 0, 0,           -- SampleRate (44100)
   136, 88, 1, 0,           -- ByteRate
   2, 0,                    -- BlockAlign
   16, 0,                   -- BitsPerSample (16)
   100, 97, 116, 97,        -- "data"
   0, 0, 0, 0]              -- Subchunk2Size (0)

/-- UTF-8 encoding of one code point (models Python `str.encode("utf-8")`
per character). -/
def utf8Char (c : Char) : List Nat :=
  let n := c.toNat
  if n < 128 then [n]
  else if n < 2048 then [192 + n / 64, 128 + n % 64]
  else if n < 65536 then [224 + n / 4096, 128 + n / 64 % 64, 128 + n % 64]
  else [240 + n / 262144, 128 + n / 4096 % 64, 128 + n / 64 % 64, 128 + n % 64]

/-- UTF-8 bytes of a string (Python `s.encode("utf-8")`). -/
def utf8 (s : String) : List Nat := s.data.flatMap utf8Char

/-- Python `repr` of a `str` (printable characters): single quotes unless
the string contains a single quote and no double quote; backslash and the
chosen quote character are escaped. -/
def pyStrRepr (s : String) : String :=
  let sq : Char := Char.ofNat 39
  let dq : Char := Char.ofNat 34
  let q := if s.data.contains sq && !s.data.contains dq then dq else sq
  let escaped := s.data.flatMap fun c => if c == '\\' || c == q then ['\\', c] else [c]
  String.mk (q :: escaped ++ [q])

/-- Joins strings with a separator (`sep.join(parts)`). -/
def joinSep (sep : String) : List String → String
  | [] => ""
  | [x] => x
  | x :: xs => x ++ sep ++ joinSep sep xs

/-- Python `str` of a list of `(str, str)` tuples, e.g. the
`str(sorted(voice_config.items()))` serialisation. -/
def pyReprItems (l : List (String × String)) : String :=
  "[" ++ joinSep ", "
    (l.map fun p => "(" ++ pyStrRepr p.1 ++ ", " ++ pyStrRepr p.2 ++ ")") ++ "]"

/-- Python tuple comparison on `(str, str)` pairs: lexicographic, first
component (the dict key) first. -/
def pairLe (p q : String × String) : Prop :=
  p.1 < q.1 ∨ (p.1 = q.1 ∧ p.2 ≤ q.2)

instance : DecidableRel pairLe := fun p q => by
  unfold pairLe; infer_instance

/-- Python `sorted` on dict items: a stable sort by the lexicographic tuple
order (for this total antisymmetric order every correct sort agrees). -/
def pySorted (l : List (String × String)) : List (String × String) :=
  List.insertionSort pairLe l

/-- 32-bit right rotation (words kept below `2^32`). -/
def rotr32 (n w : Nat) : Nat := ((w >>> n) ||| (w <<< (32 - n))) % 4294967296

/-- SHA-256 round constants. -/
def shaK : List Nat :=
  [1116352408, 1899447441, 3049323471, 3921009573, 961987163,
   1508970993, 2453635748, 2870763221, 3624381080, 310598401,
   607225278, 1426881987, 1925078388, 2162078206, 2614888103,
   3248222580, 3835390401, 4022224774, 264347078, 604807628,
   770255983, 1249150122, 1555081692, 1996064986, 2554220882,
   2821834349, 2952996808, 3210313671, 3336571891, 3584528711,
   113926993, 338241895, 666307205, 773529912, 1294757372,
   1396182291, 1695183700, 1986661051, 2177026350, 2456956037,
   2730485921, 2820302411, 3259730800, 3345764771, 3516065817,
   3600352804, 4094571909, 275423344, 430227734, 506948616,
   659060556, 883997877, 958139571, 1322822218, 1537002063,
   1747873779, 1955562222, 2024104815, 2227730452, 2361852424,
   2428436474, 2756734187, 3204031479, 3329325298]

/-- SHA-256 initial hash state. -/
def shaH0 : List Nat :=
  [1779033703, 3144134277, 1013904242, 2773480762,
   1359893119, 2600822924, 528734635, 1541459225]

/-- Big-endian 32-bit words from a byte list (groups of 4). -/
def beWords : List Nat → List Nat
  | b0 :: b1 :: b2 :: b3 :: rest =>
      (((b0 * 256 + b1) * 256 + b2) * 256 + b3) :: beWords rest
  | _ => []

/-- Big-endian 4-byte encoding of a 32-bit word. -/
def be32Bytes (n : Nat) : List Nat :=
  [n / 16777216 % 256, n / 65536 % 256, n / 256 % 256, n % 256]

/-- Big-endian 8-byte encoding of a 64-bit length field. -/
def be64Bytes (n : Nat) : List Nat :=
  [n / 72057594037927936 % 256, n / 281474976710656 % 256,
   n / 1099511627776 % 256, n / 4294967296 % 256,
   n / 16777216 % 256, n / 65536 % 256, n / 256 % 256, n % 256]

/-- Extends the 16 message-schedule words to 64. -/
def shaSchedule (w16 : List Nat) : List Nat :=
  (List.range 48).foldl
    (fun w _ =>
      let n := w.length
      let x15 := w.getD (n - 15) 0
      let x2 := w.getD (n - 2) 0
      let s0 := rotr32 7 x15 ^^^ rotr32 18 x15 ^^^ (x15 >>> 3)
      let s1 := rotr32 17 x2 ^^^ rotr32 19 x2 ^^^ (x2 >>> 10)
      w ++ [(w.getD (n - 16) 0 + s0 + w.getD (n - 7) 0 + s1) % 4294967296])
    w16

/-- One SHA-256 compression step over a 64-byte chunk. -/
def shaCompress (h : List Nat) (chunk : List Nat) : List Nat :=
  let w := shaSchedule (beWords chunk)
  let st := (List.range 64).foldl
    (fun (st : List Nat) i =>
      match st with
      | [a, b, c, d, e, f, g, hh] =>
        let S1 := rotr32 6 e ^^^ rotr32 11 e ^^^ rotr32 25 e
        let ch := (e &&& f) ^^^ ((e ^^^ 4294967295) &&& g)
        let t1 := (hh + S1 + ch + shaK.getD i 0 + w.getD i 0) % 4294967296
        let S0 := rotr32 2 a ^^^ rotr32 13 a ^^^ rotr32 22 a
        let mj := (a &&& b) ^^^ (a &&& c) ^^^ (b &&& c)
        let t2 := (S0 + mj) % 4294967296
        [(t1 + t2) % 4294967296, a, b, c, (d + t1) % 4294967296, e, f, g]
      | other => other)
    h
  (h.zip st).map fun p => (p.1 + p.2) % 4294967296

/-- Splits a byte list into 64-byte chunks. -/
def chunks64 (l : List Nat) : List (List Nat) :=
  if h : l = [] then []
  else l.take 64 :: chunks64 (l.drop 64)
termination_by l.length
decreasing_by
  cases l with
  | nil => exact absurd rfl h
  | cons a t =>
    simp [List.length_drop]
    omega

/-- SHA-256 of a byte list (models `hashlib.sha256(...).digest()`). -/
def sha256 (msg : List Nat) : List Nat :=
  let l := msg.length
  let padLen := (64 - (l + 9) % 64) % 64
  let padded := msg ++ [128] ++ List.replicate padLen 0 ++ be64Bytes (8 * l)
  ((chunks64 padded).foldl shaCompress shaH0).flatMap be32Bytes

/-- One lowercase hex digit. -/
def hexChar (n : Nat) : Char :=
  if n < 10 then Char.ofNat (48 + n) else Char.ofNat (87 + n)

/-- Lowercase hex string of a byte list (models `.hexdigest()`). -/
def hexDigest (bytes : List Nat) : String :=
  String.mk (bytes.flatMap fun b => [hexChar (b / 16 % 16), hexChar (b % 16)])

/-- Embeds `_stable_cache_key(prefix, text, voice_config)`: SHA-256 over the
UTF-8 text, a `"|"` separator, and `str(sorted(voice_config.items()))`,
hex-encoded and prefixed.  The voice config dict is modelled as an
association list of string entries. -/
def _stable_cache_key (pfx : String) (text : String)
    (voice_config : List (String × String)) : String :=
  let voice_part := utf8 (pyReprItems (pySorted voice_config))
  pfx ++ ":" ++ hexDigest (sha256 (utf8 text ++ [124] ++ voice_part))

/-- `TTS_PROVIDER` config default (env var unset). -/
def DEFAULT_TTS_PROVIDER : String := "gcloud"
/-- `GCLOUD_TTS_VOICE_NAME` config default (env var unset). -/
def DEFAULT_GCLOUD_VOICE_NAME : String := "Leda"
/-- `TTS_AUDIO_MIME` config default (env var unset). -/
def DEFAULT_AUDIO_MIME : String := "audio/wav"
/-- `TTS_CACHE_TTL_SECONDS` config default (env var unset). -/
def DEFAULT_CACHE_TTL_SECONDS : Int := 86400

/-- `dict.get(k)` on the voice-config mapping (modelled as an association
list with the dict's unique keys). -/
def dictGet (d : List (String × String)) (k : String) : Option String :=
  (d.find? fun p => p.1 == k).map Prod.snd

/-- Python `d.get(k) or default`: the default is used when the key is
absent or its value is falsy (the empty string). -/
def dictGetOr (d : List (String × String)) (k dflt : String) : String :=
  match dictGet d k with
  | some v => if v = "" then dflt else v
  | none => dflt

/-- One `generate_tts` call's provider environment: library availability
flags and the outcome of each backend attempt.  `none` models the attempt
raising (transport/auth/quota/empty-result — all are caught by the
orchestrator's `except` blocks); `some` carries the bytes the backend
produced. -/
structure TtsEnv where
  /-- `GEMINI_TTS_AVAILABLE` (google-genai import succeeded). -/
  geminiAvailable : Bool
  /-- `GCLOUD_TTS_AVAILABLE` (google-cloud-texttospeech import succeeded). -/
  gcloudAvailable : Bool
  /-- Gemini Live API attempt: raw PCM bytes accumulated from the stream,
  or `none` for any exception (including zero audio bytes). -/
  liveOutcome : Option (List Nat)
  /-- Gemini `generate_content_stream` attempt: joined audio chunk bytes and
  the first chunk's MIME type, or `none` for any exception (including no
  audio chunks). -/
  geminiStreamOutcome : Option (List Nat × Option String)
  /-- Google Cloud TTS v1 attempt: `response.audio_content` bytes, or
  `none` for any exception. -/
  gcloudOutcome : Option (List Nat)

/-- The effective voice name sent by `_generate_tts_gcloud`: the
`game_show_host` style forces `en-US-Studio-O`; otherwise the requested
(or default) voice name is used, except that `Leda` and `Aoede` are
remapped to `en-US-Studio-O` (not available via the v1 API). -/
def _gcloud_voice_name (voice_config : List (String × String)) : String :=
  let style := dictGet voice_config "style"
  let voice_name :=
    if style = some "game_show_host" then "en-US-Studio-O"
    else dictGetOr voice_config "voiceName" DEFAULT_GCLOUD_VOICE_NAME
  if voice_name = "Leda" ∨ voice_name = "Aoede" then "en-US-Studio-O"
  else voice_name

/-- The tail of `_generate_tts_gcloud_v1beta1` after streaming: joins the
chunks, converts to WAV when the declared MIME type is truthy and not
`audio/wav`; a conversion error (struct.error) propagates as the wrapped
`RuntimeError`. -/
def geminiStreamResult (audio_data : List Nat) (mime : Option String) :
    Option (List Nat) :=
  match mime with
  | some m => if m ≠ "" ∧ m ≠ "audio/wav" then _convert_audio_to_wav audio_data m
              else some audio_data
  | none => some audio_data

/-- Embeds `generate_tts(text, voice_config)`.  Control flow of the source:
empty-text validation raises `ValueError`; then the Gemini Live API is
tried (its result converted by `_pcm_to_wav` at 24 kHz/16-bit/mono), any
exception is caught; then the Gemini `generate_content_stream` path is
tried when the style is `game_show_host`, the (defaulted) voice name is
`Leda`, or the provider is `gemini`, any exception caught; then Google
Cloud TTS v1 when the provider is `gcloud`, any exception caught; finally
the literal `empty_wav` is returned. -/
def generate_tts (env : TtsEnv) (text : String)
    (voice_config : List (String × String)) : Except String (List Nat) :=
  if text = "" ∨ pyStrip text = "" then
    .error "text must be a non-empty string"
  else
    let provider := dictGetOr voice_config "provider" DEFAULT_TTS_PROVIDER
    -- Primary: Gemini Live API (exceptions fall through)
    let primary : Option (List Nat) :=
      if env.geminiAvailable then
        match env.liveOutcome with
        | some pcm_data => _pcm_to_wav pcm_data 24000 1 2
        | none => none
      else none
    match primary with
    | some wav => .ok wav
    | none =>
      -- Fallback 1: Gemini API generate_content_stream (Leda voice path)
      let fb1 : Option (List Nat) :=
        if env.geminiAvailable ∧
            (dictGet voice_config "style" = some "game_show_host" ∨
             dictGetOr voice_config "voiceName" DEFAULT_GCLOUD_VOICE_NAME = "Leda" ∨
             provider = "gemini") then
          match env.geminiStreamOutcome with
          | some (audio_data, mime) => geminiStreamResult audio_data mime
          | none => none
        else none
      match fb1 with
      | some audio => .ok audio
      | none =>
        -- Fallback 2: Google Cloud TTS v1
        let fb2 : Option (List Nat) :=
          if provider = "gcloud" ∧ env.gcloudAvailable then env.gcloudOutcome
          else none
        match fb2 with
        | some audio => .ok audio
        | none => .ok empty_wav

/-- Base64 alphabet character at index `i` (RFC 4648, as used by Python
`base64.b64encode`). -/
def b64Char (i : Nat) : Char :=
  if i < 26 then Char.ofNat (65 + i)
  else if i < 52 then Char.ofNat (97 + (i - 26))
  else if i < 62 then Char.ofNat (48 + (i - 52))
  else if i = 62 then Char.ofNat 43
  else Char.ofNat 47

/-- Standard base64 encoding of a byte list
(`base64.b64encode(...).decode("utf-8")`). -/
def base64Encode : List Nat → String
  | [] => ""
  | [b0] =>
      String.mk [b64Char (b0 / 4), b64Char (b0 % 4 * 16), Char.ofNat 61,
                 Char.ofNat 61]
  | [b0, b1] =>
      String.mk [b64Char (b0 / 4), b64Char (b0 % 4 * 16 + b1 / 16),
                 b64Char (b1 % 16 * 4), Char.ofNat 61]
  | b0 :: b1 :: b2 :: rest =>
      String.mk [b64Char (b0 / 4), b64Char (b0 % 4 * 16 + b1 / 16),
                 b64Char (b1 % 16 * 4 + b2 / 64), b64Char (b2 % 64)]
        ++ base64Encode rest

/-- The Redis store visible to `get_audio_url`: key → (base64 value,
expiry seconds).  `r.setex` records `some ttl`; `r.set` records `none`. -/
structure Store where
  entries : List (String × String × Option Int)
deriving DecidableEq

/-- `r.get(key)`: the stored string, or `None`. -/
def storeGet (s : Store) (k : String) : Option String :=
  (s.entries.find? fun e => e.1 == k).map fun e => e.2.1

/-- `r.setex` / `r.set`: (re)binds `k`. -/
def storeSet (s : Store) (k v : String) (ttl : Option Int) : Store :=
  ⟨(k, v, ttl) :: s.entries.filter fun e => e.1 ≠ k⟩

/-- Embeds `get_audio_url(text, cache_key, voice_config, ttl_seconds)`.
Result: the returned data URL, the store after the call, and how many
times `generate_tts` was invoked.  An empty `cache_key` raises
`ValueError`; a truthy cached string is returned directly; otherwise the
audio is synthesized, base64-encoded, stored with `setex` when
`ttl_seconds` is truthy and positive (else `set`, no expiry), and
returned as `data:<mimeType>;base64,<payload>`. -/
def get_audio_url (env : TtsEnv) (text : String) (cache_key : String)
    (voice_config : List (String × String))
    (ttl_seconds : Int := DEFAULT_CACHE_TTL_SECONDS) (store : Store) :
    Except String (String × Store × Nat) :=
  if cache_key = "" then .error "cache_key is required"
  else
    let mime_type := dictGetOr voice_config "mimeType" DEFAULT_AUDIO_MIME
    let hit : Option String :=
      match storeGet store cache_key with
      | some cached_b64 => if cached_b64 = "" then none else some cached_b64
      | none => none
    match hit with
    | some cached_b64 =>
        .ok ("data:" ++ mime_type ++ ";base64," ++ cached_b64, store, 0)
    | none =>
      match generate_tts env text voice_config with
      | .error e => .error e
      | .ok audio_bytes =>
        let b64 := base64Encode audio_bytes
        let store1 :=
          if ttl_seconds ≠ 0 ∧ ttl_seconds > 0 then
            storeSet store cache_key b64 (some ttl_seconds)
          else storeSet store cache_key b64 none
        .ok ("data:" ++ mime_type ++ ";base64," ++ b64, store1, 1)

theorem pack32_natCast (n : Nat) (h : n < 4294967296) :
    pack32 (n : Int) =
      some [n % 256, n / 256 % 256, n / 65536 % 256, n / 16777216 % 256] := by
  unfold pack32
  rw [if_pos ⟨Int.natCast_nonneg n, by exact_mod_cast h⟩]
  simp

theorem pcm_to_wav_24k_mono_16 (pcm : List Nat)
    (h : (pcm.length : Int) + 36 < 4294967296) :
    _pcm_to_wav pcm 24000 1 2 = some (pcmWavHeader pcm.length ++ pcm) := by
  have hN : 36 + pcm.length < 4294967296 := by omega
  have hd : pcm.length < 4294967296 := by omega
  have e1 : (36 : Int) + (pcm.length : Int) = ((36 + pcm.length : Nat) : Int) := by
    push_cast; ring
  simp only [_pcm_to_wav, pcmWavHeader]
  rw [e1, pack32_natCast _ hN, pack32_natCast _ hd]
  rfl

/-- C3: for raw PCM of `N` bytes encoded at 24000 Hz, 16-bit, mono, the
produced container is `44 + N` bytes long, its little-endian declared
data-chunk size equals `N`, its declared RIFF size equals `36 + N`, and
its declared byte rate equals `48000 = 24000 * 1 * 2` (the header fits
the 32-bit fields as long as `N + 36 < 2^32`). -/
theorem claim_C3_container_header (pcm : List Nat)
    (h : (pcm.length : Int) + 36 < 4294967296) :
    ∃ w, _pcm_to_wav pcm 24000 1 2 = some w ∧
      w.length = 44 + pcm.length ∧
      readLE32 w 40 = pcm.length ∧
      readLE32 w 4 = 36 + pcm.length ∧
      readLE32 w 28 = 48000 := by
  have hd : pcm.length < 4294967296 := by omega
  have hN : 36 + pcm.length < 4294967296 := by omega
  refine ⟨_, pcm_to_wav_24k_mono_16 pcm h, ?_, ?_, ?_, ?_⟩
  · rw [List.length_append, show (pcmWavHeader pcm.length).length = 44 from rfl]
  · have e : readLE32 (pcmWavHeader pcm.length ++ pcm) 40
        = pcm.length % 256 + 256 * (pcm.length / 256 % 256)
          + 65536 * (pcm.length / 65536 % 256)
          + 16777216 * (pcm.length / 16777216 % 256) := rfl
    rw [e]; omega
  · have e : readLE32 (pcmWavHeader pcm.length ++ pcm) 4
        = (36 + pcm.length) % 256 + 256 * ((36 + pcm.length) / 256 % 256)
          + 65536 * ((36 + pcm.length) / 65536 % 256)
          + 16777216 * ((36 + pcm.length) / 16777216 % 256) := rfl
    rw [e]; omega
  · have e : readLE32 (pcmWavHeader pcm.length ++ pcm) 28
        = 128 + 256 * 187 + 65536 * 0 + 16777216 * 0 := rfl
    rw [e]

/-- Witness for C3 at the two-byte payload `[1, 2]`. -/
theorem claim_C3_container_header_witness :
    ((([1, 2] : List Nat).length : Int) + 36 < 4294967296) ∧
    (∃ w, _pcm_to_wav [1, 2] 24000 1 2 = some w ∧
      w.length = 44 + ([1, 2] : List Nat).length ∧
      readLE32 w 40 = ([1, 2] : List Nat).length ∧
      readLE32 w 4 = 36 + ([1, 2] : List Nat).length ∧
      readLE32 w 28 = 48000) :=
  ⟨by decide, claim_C3_container_header [1, 2] (by decide)⟩

/-- C10: the MIME-type-driven encoder at `audio/L16;rate=24000` and the
parameter-driven encoder at 24000 Hz, 1 channel, 2 bytes/sample produce
identical containers for every payload. -/
theorem claim_C10_encoders_agree (d : List Nat) :
    _convert_audio_to_wav d "audio/L16;rate=24000" = _pcm_to_wav d 24000 1 2 := by
  have hm : mimeParams "audio/L16;rate=24000" = ((16 : Int), (24000 : Int)) := by
    decide
  unfold _convert_audio_to_wav _pcm_to_wav
  rw [hm]
  norm_num

/-- C2 counterexample: with descriptor `audio/L16;rate=0` the sample rate
parses to the non-positive value `0`, yet the encoder does not fail: it
emits a container (with sample-rate field 0) instead of raising a
`FormatError`. -/
theorem claim_C2_counterexample :
    (mimeParams "audio/L16;rate=0").2 = 0 ∧
    _convert_audio_to_wav [] "audio/L16;rate=0" =
      some [82, 73, 70, 70, 36, 0, 0, 0, 87, 65, 86, 69, 102, 109, 116, 32,
            16, 0, 0, 0, 1, 0, 1, 0, 0, 0, 0, 0, 0, 0, 0, 0, 2, 0, 16, 0,
            100, 97, 116, 97, 0, 0, 0, 0] := by
  constructor <;> decide

/-- C2 amended: the encoder never raises a `FormatError`; a sample-rate
field that cannot be parsed is silently ignored and the default 24000 Hz
is used (here: `rate=abc` encodes exactly like `rate=24000` on every
payload), and a field that parses to the non-positive value 0 is accepted
and emitted as-is (the counterexample); channel count is never read from
the descriptor. -/
theorem claim_C2_amended_defaults (d : List Nat) :
    _convert_audio_to_wav d "audio/L16;rate=abc" =
      _convert_audio_to_wav d "audio/L16;rate=24000" := by
  have h1 : mimeParams "audio/L16;rate=abc" = ((16 : Int), (24000 : Int)) := by
    decide
  have h2 : mimeParams "audio/L16;rate=24000" = ((16 : Int), (24000 : Int)) := by
    decide
  unfold _convert_audio_to_wav
  rw [h1, h2]

instance : IsTotal (String × String) pairLe := by
  constructor
  intro a b
  rcases lt_trichotomy a.1 b.1 with h | h | h
  · exact Or.inl (Or.inl h)
  · rcases le_total a.2 b.2 with h2 | h2
    · exact Or.inl (Or.inr ⟨h, h2⟩)
    · exact Or.inr (Or.inr ⟨h.symm, h2⟩)
  · exact Or.inr (Or.inl h)

instance : IsTrans (String × String) pairLe := by
  constructor
  intro a b c hab hbc
  rcases hab with h1 | ⟨he1, hv1⟩
  · rcases hbc with h2 | ⟨he2, _⟩
    · exact Or.inl (h1.trans h2)
    · exact Or.inl (he2 ▸ h1)
  · rcases hbc with h2 | ⟨he2, hv2⟩
    · exact Or.inl (lt_of_eq_of_lt he1 h2)
    · exact Or.inr ⟨he1.trans he2, hv1.trans hv2⟩

instance : IsAntisymm (String × String) pairLe := by
  constructor
  intro a b hab hba
  rcases hab with h1 | ⟨he1, hv1⟩
  · rcases hba with h2 | ⟨he2, _⟩
    · exact absurd h2 (lt_asymm h1)
    · exact absurd (he2 ▸ h1) (lt_irrefl _)
  · rcases hba with h2 | ⟨_, hv2⟩
    · exact absurd (lt_of_eq_of_lt he1 h2) (lt_irrefl _)
    · exact Prod.ext he1 (le_antisymm hv1 hv2)

theorem pySorted_perm_eq {v₁ v₂ : List (String × String)} (h : v₁.Perm v₂) :
    pySorted v₁ = pySorted v₂ :=
  List.eq_of_perm_of_sorted
    ((List.perm_insertionSort pairLe v₁).trans
      (h.trans (List.perm_insertionSort pairLe v₂).symm))
    (List.sorted_insertionSort pairLe v₁)
    (List.sorted_insertionSort pairLe v₂)

/-- C4: the cache-key fingerprint is a pure function and is insensitive to
the insertion order of the voice-config entries: structurally equal
configurations (as multisets of key/value entries — permutations of one
another) hash to the identical fingerprint string, because the entries are
sorted by key before the 256-bit hash is applied. -/
theorem claim_C4_fingerprint_deterministic (pfx text : String)
    (v₁ v₂ : List (String × String)) (h : v₁.Perm v₂) :
    _stable_cache_key pfx text v₁ = _stable_cache_key pfx text v₂ := by
  unfold _stable_cache_key
  rw [pySorted_perm_eq h]

/-- Witness for C4: the two-entry config in both insertion orders. -/
theorem claim_C4_fingerprint_deterministic_witness :
    _stable_cache_key "tts" "hello" [("voiceName", "Leda"), ("style", "x")]
      = _stable_cache_key "tts" "hello" [("style", "x"), ("voiceName", "Leda")] :=
  claim_C4_fingerprint_deterministic "tts" "hello" _ _
    (List.Perm.swap _ _ _)

/-- C9: in the Google Cloud adapter, the `game_show_host` style tag forces
the effective voice `en-US-Studio-O` regardless of the requested
`voiceName`, and a requested voice name `Leda` or `Aoede` is replaced by
the substitute `en-US-Studio-O` (those voices are not available through
the v1 API). -/
theorem claim_C9_gcloud_voice_substitution (vc : List (String × String)) :
    (dictGet vc "style" = some "game_show_host" →
      _gcloud_voice_name vc = "en-US-Studio-O") ∧
    (dictGet vc "voiceName" = some "Leda" ∨ dictGet vc "voiceName" = some "Aoede" →
      _gcloud_voice_name vc = "en-US-Studio-O") := by
  constructor
  · intro h
    simp only [_gcloud_voice_name]
    rw [h, if_pos rfl, if_neg (by decide)]
  · intro h
    simp only [_gcloud_voice_name]
    by_cases hs : dictGet vc "style" = some "game_show_host"
    · rw [hs, if_pos rfl, if_neg (by decide)]
    · rw [if_neg hs]
      rcases h with hv | hv
      · have e : dictGetOr vc "voiceName" DEFAULT_GCLOUD_VOICE_NAME = "Leda" := by
          unfold dictGetOr
          rw [hv]
          rfl
        rw [e, if_pos (Or.inl rfl)]
      · have e : dictGetOr vc "voiceName" DEFAULT_GCLOUD_VOICE_NAME = "Aoede" := by
          unfold dictGetOr
          rw [hv]
          rfl
        rw [e, if_pos (Or.inr rfl)]

/-- Witness for C9: a forced style, and a requested `Aoede` voice. -/
theorem claim_C9_gcloud_voice_substitution_witness :
    _gcloud_voice_name [("style", "game_show_host"), ("voiceName", "Zephyr")]
      = "en-US-Studio-O" ∧
    _gcloud_voice_name [("voiceName", "Aoede")] = "en-US-Studio-O" :=
  ⟨(claim_C9_gcloud_voice_substitution _).1 rfl,
   (claim_C9_gcloud_voice_substitution _).2 (Or.inr rfl)⟩

/-- C1: when every provider attempt fails (which also covers no provider
being importable, since then no outcome is produced), `generate_tts`
returns — rather than raises — the literal minimal silent WAV: 44 bytes,
RIFF/WAVE tags, declared RIFF size 36 and declared data-chunk size 0. -/
theorem claim_C1_silent_fallback (env : TtsEnv) (text : String)
    (vc : List (String × String))
    (htext : ¬(text = "" ∨ pyStrip text = ""))
    (h1 : env.liveOutcome = none) (h2 : env.geminiStreamOutcome = none)
    (h3 : env.gcloudOutcome = none) :
    generate_tts env text vc = .ok empty_wav ∧
    empty_wav.length = 44 ∧ readLE32 empty_wav 40 = 0 ∧
    readLE32 empty_wav 4 = 36 ∧
    empty_wav.take 4 = bRIFF ∧ (empty_wav.drop 8).take 4 = bWAVE := by
  refine ⟨?_, by decide, by decide, by decide, by decide, by decide⟩
  simp [generate_tts, htext, h1, h2, h3, ite_self]

/-- Witness for C1: all three provider attempts fail on `"hi"`. -/
theorem claim_C1_silent_fallback_witness :
    generate_tts ⟨true, true, none, none, none⟩ "hi" [] = .ok empty_wav ∧
    empty_wav.length = 44 ∧ readLE32 empty_wav 40 = 0 ∧
    readLE32 empty_wav 4 = 36 ∧
    empty_wav.take 4 = bRIFF ∧ (empty_wav.drop 8).take 4 = bWAVE :=
  claim_C1_silent_fallback ⟨true, true, none, none, none⟩ "hi" []
    (by decide) rfl rfl rfl

/-- C6: for non-empty text, `generate_tts` never surfaces a provider
error: whatever each backend attempt does (any combination of outcomes in
the environment), the result is `.ok`; the only raise in the function is
the empty-text validation. -/
theorem claim_C6_no_provider_error (env : TtsEnv) (text : String)
    (vc : List (String × String))
    (htext : ¬(text = "" ∨ pyStrip text = "")) :
    ∃ b, generate_tts env text vc = .ok b := by
  simp only [generate_tts, if_neg htext]
  repeat' first
  | exact ⟨_, rfl⟩
  | split

/-- Witness for C6: a concrete environment whose Live attempt succeeds. -/
theorem claim_C6_no_provider_error_witness :
    ∃ b, generate_tts ⟨true, false, some [1, 2], none, none⟩ "hi" [] = .ok b :=
  claim_C6_no_provider_error ⟨true, false, some [1, 2], none, none⟩ "hi" []
    (by decide)

/-- C7: bad caller input fails immediately, before any other work:
`generate_tts` raises the validation `ValueError` whenever the text trims
to empty, and the result does not depend on the provider environment (no
provider is consulted); `get_audio_url` with an empty cache key raises
`ValueError` and its result does not depend on the provider environment,
the store, or the TTL (no store access, no synthesis). -/
theorem claim_C7_validation_first (text : String) (env env₂ : TtsEnv)
    (vc : List (String × String)) (store store₂ : Store) (ttl ttl₂ : Int) :
    (pyStrip text = "" →
      generate_tts env text vc = .error "text must be a non-empty string" ∧
      generate_tts env text vc = generate_tts env₂ text vc) ∧
    (get_audio_url env text "" vc ttl store = .error "cache_key is required" ∧
     get_audio_url env text "" vc ttl store
       = get_audio_url env₂ text "" vc ttl₂ store₂) := by
  constructor
  · intro h
    constructor
    · simp only [generate_tts]
      rw [if_pos (Or.inr h)]
    · simp only [generate_tts]
      rw [if_pos (Or.inr h), if_pos (Or.inr h)]
  · constructor
    · simp [get_audio_url]
    · simp [get_audio_url]

/-- Witness for C7: whitespace-only text and an empty cache key, under two
different environments/stores/TTLs. -/
theorem claim_C7_validation_first_witness :
    (generate_tts ⟨true, true, some [5], some ([6], some "audio/wav"), some [7]⟩
        " " [] = .error "text must be a non-empty string" ∧
     generate_tts ⟨true, true, some [5], some ([6], some "audio/wav"), some [7]⟩
        " " [] = generate_tts ⟨false, false, none, none, none⟩ " " []) ∧
    (get_audio_url ⟨true, true, some [5], some ([6], some "audio/wav"), some [7]⟩
        "hi" "" [] 86400 ⟨[]⟩ = .error "cache_key is required" ∧
     get_audio_url ⟨true, true, some [5], some ([6], some "audio/wav"), some [7]⟩
        "hi" "" [] 86400 ⟨[]⟩
       = get_audio_url ⟨false, false, none, none, none⟩ "hi" "" [] 0
           ⟨[("x", "y", none)]⟩) :=
  ⟨(claim_C7_validation_first " "
      ⟨true, true, some [5], some ([6], some "audio/wav"), some [7]⟩
      ⟨false, false, none, none, none⟩ [] ⟨[]⟩ ⟨[("x", "y", none)]⟩ 86400 0).1
      (by decide),
   (claim_C7_validation_first "hi"
      ⟨true, true, some [5], some ([6], some "audio/wav"), some [7]⟩
      ⟨false, false, none, none, none⟩ [] ⟨[]⟩ ⟨[("x", "y", none)]⟩ 86400 0).2⟩

theorem storeGet_storeSet (s : Store) (k v : String) (t : Option Int) :
    storeGet (storeSet s k v t) k = some v := by
  unfold storeGet storeSet
  rw [List.find?_cons_of_pos]
  · rfl
  · simp

/-- C5 counterexample: with the Gemini library unavailable and the Google
Cloud backend "succeeding" with zero audio bytes, the first
`get_audio_url` call stores the empty base64 string under `"k"`; the
second call with the same key finds the cached value but — because the
empty string is falsy in the `if cached_b64:` check — treats it as a miss
and invokes `generate_tts` again (invocation count 1, not 0). -/
theorem claim_C5_counterexample :
    get_audio_url ⟨false, true, none, none, some []⟩ "hi" "k" [] 86400 ⟨[]⟩
      = .ok ("data:audio/wav;base64,", ⟨[("k", "", some 86400)]⟩, 1) ∧
    get_audio_url ⟨false, true, none, none, some []⟩ "hi" "k" [] 86400
        ⟨[("k", "", some 86400)]⟩
      = .ok ("data:audio/wav;base64,", ⟨[("k", "", some 86400)]⟩, 1) := by
  constructor <;> rfl

/-- C5 amended: after a `get_audio_url` call for key `F` whose resulting
store holds a non-empty base64 string under `F` (which is what a
successful synthesis produces — every real container is non-empty), a
second call with the same key and voice configuration returns the
identical data-URL string straight from the store, with zero
`generate_tts` invocations.  (The amendment excludes the empty-payload
corner shown by the counterexample, where the falsy cached string is
re-synthesized.) -/
theorem claim_C5_amended_cached_hit (env : TtsEnv) (text key : String)
    (vc : List (String × String)) (ttl : Int) (store store₁ : Store)
    (url : String) (n : Nat) (p : String)
    (h1 : get_audio_url env text key vc ttl store = .ok (url, store₁, n))
    (hp : storeGet store₁ key = some p) (hpne : p ≠ "") :
    get_audio_url env text key vc ttl store₁ = .ok (url, store₁, 0) := by
  by_cases hk : key = ""
  · rw [hk] at h1
    simp [get_audio_url] at h1
  · simp only [get_audio_url, if_neg hk] at h1 ⊢
    rcases hhit : (match storeGet store key with
      | some cached_b64 => if cached_b64 = "" then none else some cached_b64
      | none => none) with _ | c
    · -- first call missed
      rw [hhit] at h1
      rcases hgen : generate_tts env text vc with e | bytes <;> rw [hgen] at h1
      · simp at h1
      · simp only [Except.ok.injEq, Prod.mk.injEq] at h1
        obtain ⟨hu, hs, hn⟩ := h1
        subst hs
        subst hu
        by_cases ht : (ttl ≠ 0 ∧ ttl > 0)
        · rw [if_pos ht] at hp ⊢
          rw [storeGet_storeSet] at hp
          have hb : base64Encode bytes = p := Option.some.inj hp
          subst hb
          rw [storeGet_storeSet]
          simp [hpne]
        · rw [if_neg ht] at hp ⊢
          rw [storeGet_storeSet] at hp
          have hb : base64Encode bytes = p := Option.some.inj hp
          subst hb
          rw [storeGet_storeSet]
          simp [hpne]
    · -- first call hit
      rw [hhit] at h1
      simp only [Except.ok.injEq, Prod.mk.injEq] at h1
      obtain ⟨hu, hs, hn⟩ := h1
      subst hs
      subst hu
      rw [hhit]

/-- Witness for the amended C5: after the first call stored the silent
container's base64 under `"k"`, the second call hits, returns the same
URL, and performs zero synthesis invocations. -/
theorem claim_C5_amended_cached_hit_witness :
    get_audio_url ⟨true, true, none, none, none⟩ "hi" "k" [] 86400
        (storeSet ⟨[]⟩ "k" (base64Encode empty_wav) (some 86400))
      = .ok ("data:audio/wav;base64," ++ base64Encode empty_wav,
             storeSet ⟨[]⟩ "k" (base64Encode empty_wav) (some 86400), 0) :=
  claim_C5_amended_cached_hit ⟨true, true, none, none, none⟩ "hi" "k" []
    86400 ⟨[]⟩ (storeSet ⟨[]⟩ "k" (base64Encode empty_wav) (some 86400))
    ("data:audio/wav;base64," ++ base64Encode empty_wav) 1
    (base64Encode empty_wav) rfl rfl (by decide)

/-- C8: on a cache miss (no entry, or the falsy empty entry) with a valid
key, `get_audio_url` base64-encodes the synthesized container, writes it
with expiry `ttl_seconds` when positive and with no expiry otherwise, and
returns exactly `data:<mimeType>;base64,<payload>` with the MIME type
taken from the voice config and defaulting to `audio/wav`, having invoked
synthesis exactly once. -/
theorem claim_C8_miss_encode_store (env : TtsEnv) (text key : String)
    (vc : List (String × String)) (ttl : Int) (store : Store)
    (bytes : List Nat) (hk : key ≠ "")
    (hmiss : storeGet store key = none ∨ storeGet store key = some "")
    (hgen : generate_tts env text vc = .ok bytes) :
    get_audio_url env text key vc ttl store =
      .ok ("data:" ++ dictGetOr vc "mimeType" "audio/wav" ++ ";base64,"
            ++ base64Encode bytes,
           storeSet store key (base64Encode bytes)
             (if ttl > 0 then some ttl else none), 1) := by
  have hiff : (ttl ≠ 0 ∧ ttl > 0) ↔ ttl > 0 :=
    ⟨fun h => h.2, fun h => ⟨by omega, h⟩⟩
  simp only [get_audio_url, if_neg hk, hgen, DEFAULT_AUDIO_MIME]
  rcases hmiss with hm | hm <;> simp [hm, hiff] <;> split <;> rfl

/-- Witness for C8: all providers fail, the silent container is encoded,
stored under `"k"` with the default TTL, and returned as a data URL. -/
theorem claim_C8_miss_encode_store_witness :
    get_audio_url ⟨true, true, none, none, none⟩ "hi" "k" [] 86400 ⟨[]⟩ =
      .ok ("data:" ++ dictGetOr [] "mimeType" "audio/wav" ++ ";base64,"
            ++ base64Encode empty_wav,
           storeSet ⟨[]⟩ "k" (base64Encode empty_wav)
             (if (86400 : Int) > 0 then some 86400 else none), 1) :=
  claim_C8_miss_encode_store ⟨true, true, none, none, none⟩ "hi" "k" []
    86400 ⟨[]⟩ empty_wav (by decide) (Or.inl rfl) rfl

end Tts
